import Mathlib

/-!
Shallow embedding of the signal-scoring and consensus-decision pipeline of the
Stock-testing-project repository: the indicator engine
(`src/scripts/indicators_v2.py`, `src/scripts/kdj_indicator.py`), the technical
analysis agent (`src/agents/technical/technical_agent.py`), the debate agent
(`src/agents/debate/debate_agent.py`) and the decision agent
(`src/agents/decision/decision_agent.py`).  Python floats are modelled as exact
rationals; Python `None` as `Option.none`; an uncaught Python exception as an
`Option.none` result of the enclosing call.
-/

namespace StockProject

/-! ## Data model (dataclasses of the source) -/

/-- `TechnicalAnalysisResult` dataclass of `technical_agent.py`.
The `indicators` dict can hold keys `RSI` and `MACD`; it is modelled by the
two optional fields of `AgentIndicators`. -/
structure AgentIndicators where
  rsi : Option ℚ
  macd : Option ℚ
deriving Repr, DecidableEq

structure TechnicalAnalysisResult where
  trend : String
  position : String
  patterns : List String
  indicators : AgentIndicators
  volume_price : String
  score : ℚ
  signals : List String
deriving Repr, DecidableEq

/-- Field defaults of the `TechnicalAnalysisResult` dataclass. -/
def defaultTechnicalResult : TechnicalAnalysisResult :=
  { trend := "未知", position := "未知", patterns := [], indicators := ⟨none, none⟩,
    volume_price := "", score := 0, signals := [] }

/-- `FundamentalAnalysisResult` dataclass fields consumed by debate/decision. -/
structure FundamentalAnalysisResult where
  valuation : String
  financial_health : String
  score : ℚ
deriving Repr, DecidableEq

/-- `SentimentAnalysisResult` dataclass fields consumed by debate/decision. -/
structure SentimentAnalysisResult where
  news_sentiment : String
  event_impact : String
  sentiment_score : ℚ
  score : ℚ
deriving Repr, DecidableEq

/-- `DebateResult` dataclass of `debate_agent.py`. -/
structure DebateResult where
  bull_score : ℚ
  bear_score : ℚ
  bull_arguments : List String
  bear_arguments : List String
  consensus : String
  score : ℚ
  signals : List String
deriving Repr, DecidableEq

/-- `TradingDecision` dataclass of `graph/trading_graph.py`. -/
structure TradingDecision where
  symbol : String
  action : String
  confidence : ℚ
  buy_price : Option ℚ
  sell_price : Option ℚ
  stop_loss : Option ℚ
  target_price : Option ℚ
  reasons : List String
  technical_score : ℚ
  fundamental_score : ℚ
  sentiment_score : ℚ
  overall_score : ℚ
deriving Repr, DecidableEq

/-! ## Debate agent (`debate_agent.py`) -/

/-- `DebateAgent._collect_bull_arguments`. -/
def collect_bull_arguments (technical_result : TechnicalAnalysisResult)
    (fundamental_result : FundamentalAnalysisResult)
    (sentiment_result : SentimentAnalysisResult) : List String :=
  (if technical_result.trend = "上升" then ["技术面呈" ++ technical_result.trend ++ "趋势"] else [])
  ++ (if technical_result.position = "低位" then ["股价处于" ++ technical_result.position] else [])
  ++ (if fundamental_result.valuation = "低估" then ["估值偏低，安全边际高"] else [])
  ++ (if fundamental_result.financial_health = "优秀" ∨ fundamental_result.financial_health = "良好"
      then ["财务状况" ++ fundamental_result.financial_health] else [])
  ++ (if sentiment_result.news_sentiment = "正面" then ["新闻面偏正面"] else [])
  ++ (if sentiment_result.event_impact = "利好" then ["有利好消息刺激"] else [])

/-- `DebateAgent._collect_bear_arguments`. -/
def collect_bear_arguments (technical_result : TechnicalAnalysisResult)
    (fundamental_result : FundamentalAnalysisResult)
    (sentiment_result : SentimentAnalysisResult) : List String :=
  (if technical_result.trend = "下降" then ["技术面呈" ++ technical_result.trend ++ "趋势"] else [])
  ++ (if technical_result.position = "高位" then ["股价处于" ++ technical_result.position] else [])
  ++ (if fundamental_result.valuation = "高估" then ["估值偏高，存在泡沫"] else [])
  ++ (if fundamental_result.financial_health = "一般" then ["财务状况一般"] else [])
  ++ (if sentiment_result.news_sentiment = "负面" then ["新闻面偏负面"] else [])
  ++ (if sentiment_result.event_impact = "利空" then ["有利空消息压制"] else [])

/-- `DebateAgent._calculate_bull_score`: technical 40%, fundamental 30%, sentiment 30%. -/
def calculate_bull_score (technical_score fundamental_score sentiment_score : ℚ) : ℚ :=
  technical_score * 0.4 + fundamental_score * 0.3 + sentiment_score * 0.3

/-- `DebateAgent._calculate_bear_score`: the complement of the bull score. -/
def calculate_bear_score (technical_score fundamental_score sentiment_score : ℚ) : ℚ :=
  1.0 - calculate_bull_score technical_score fundamental_score sentiment_score

/-- `DebateAgent._reach_consensus`. -/
def reach_consensus (bull_score bear_score : ℚ) : String :=
  let diff := |bull_score - bear_score|
  if diff < 0.1 then "中性"
  else if bull_score > bear_score then "看多"
  else "看空"

/-- `DebateAgent._generate_signals`. -/
def generate_debate_signals (result : DebateResult) : List String :=
  if result.consensus = "看多" then ["多方占优"]
  else if result.consensus = "看空" then ["空方占优"]
  else ["多空平衡"]

/-- `DebateAgent.debate`: the full single-pass debate. -/
def debate (technical_result : TechnicalAnalysisResult)
    (fundamental_result : FundamentalAnalysisResult)
    (sentiment_result : SentimentAnalysisResult) : DebateResult :=
  let bull_arguments :=
    collect_bull_arguments technical_result fundamental_result sentiment_result
  let bear_arguments :=
    collect_bear_arguments technical_result fundamental_result sentiment_result
  let bull_score :=
    calculate_bull_score technical_result.score fundamental_result.score sentiment_result.score
  let bear_score :=
    calculate_bear_score technical_result.score fundamental_result.score sentiment_result.score
  let consensus := reach_consensus bull_score bear_score
  let score := bull_score / (bull_score + bear_score)
  let partial_result : DebateResult :=
    { bull_score := bull_score, bear_score := bear_score,
      bull_arguments := bull_arguments, bear_arguments := bear_arguments,
      consensus := consensus, score := score, signals := [] }
  { partial_result with signals := generate_debate_signals partial_result }

/-! ## Decision agent (`decision_agent.py`) -/

/-- `DecisionAgent.stop_loss_pct`. -/
def stop_loss_pct : ℚ := 0.03

/-- `DecisionAgent.take_profit_pct`. -/
def take_profit_pct : ℚ := 0.05

/-- `DecisionAgent._determine_action`: score/consensus to (action, confidence). -/
def determine_action (overall_score : ℚ) (consensus : String) : String × ℚ :=
  if overall_score ≥ 0.7 ∧ consensus = "看多" then
    ("买入", min 0.9 (overall_score + 0.1))
  else if overall_score ≥ 0.5 ∧ consensus = "看多" then
    ("买入", overall_score)
  else if overall_score ≤ 0.3 ∧ consensus = "看空" then
    ("卖出", min 0.9 ((1.0 - overall_score) + 0.1))
  else if overall_score ≤ 0.4 ∧ consensus = "看空" then
    ("卖出", 1.0 - overall_score)
  else
    ("观望", 0.5)

/-- `DecisionAgent._calculate_prices`:
returns `(buy_price, sell_price, stop_loss, target_price)`. -/
def calculate_prices (action : String) (current_price : ℚ)
    (technical_result : TechnicalAnalysisResult) :
    Option ℚ × Option ℚ × Option ℚ × Option ℚ :=
  if action = "买入" then
    let buy_price := current_price
    let stop_loss := current_price * (1 - stop_loss_pct)
    let target_price := current_price * (1 + take_profit_pct)
    let target_price :=
      if technical_result.position = "低位" then
        current_price * (1 + take_profit_pct + 0.02)
      else target_price
    (some buy_price, none, some stop_loss, some target_price)
  else if action = "卖出" then
    (none, some current_price, none, none)
  else
    (none, none, none, none)

/-- `DecisionAgent._collect_reasons`. -/
def collect_reasons (technical_result : TechnicalAnalysisResult)
    (fundamental_result : FundamentalAnalysisResult)
    (sentiment_result : SentimentAnalysisResult)
    (debate_result : DebateResult) : List String :=
  (if technical_result.trend ≠ "横盘" then ["技术面呈" ++ technical_result.trend ++ "趋势"] else [])
  ++ (if technical_result.position ≠ "中位" then ["股价处于" ++ technical_result.position] else [])
  ++ (if technical_result.volume_price ≠ "" then [technical_result.volume_price] else [])
  ++ (if fundamental_result.valuation ≠ "合理" then ["估值" ++ fundamental_result.valuation] else [])
  ++ (if fundamental_result.financial_health ≠ "一般"
      then ["财务状况" ++ fundamental_result.financial_health] else [])
  ++ (if sentiment_result.news_sentiment ≠ "中性"
      then ["新闻情绪" ++ sentiment_result.news_sentiment] else [])
  ++ (if sentiment_result.event_impact ≠ "无影响" then [sentiment_result.event_impact] else [])
  ++ (if debate_result.consensus ≠ "中性" then ["多空辩论" ++ debate_result.consensus] else [])

/-- `DecisionAgent.make_decision`.  The external realtime quote
(`fetch_stock_data`) is a parameter: `none` models an empty provider
response, in which case the current price defaults to `0.0`. -/
def make_decision (symbol : String) (quote : Option ℚ)
    (technical_result : TechnicalAnalysisResult)
    (fundamental_result : FundamentalAnalysisResult)
    (sentiment_result : SentimentAnalysisResult)
    (debate_result : DebateResult) : TradingDecision :=
  let current_price := match quote with | none => 0.0 | some price => price
  let overall_score :=
    technical_result.score * 0.4 + fundamental_result.score * 0.3 +
      sentiment_result.score * 0.3
  let ac := determine_action overall_score debate_result.consensus
  let action := ac.1
  let confidence := ac.2
  let prices := calculate_prices action current_price technical_result
  let buy_price := prices.1
  let sell_price := prices.2.1
  let stop_loss := prices.2.2.1
  let target_price := prices.2.2.2
  let reasons :=
    collect_reasons technical_result fundamental_result sentiment_result debate_result
  { symbol := symbol, action := action, confidence := confidence,
    buy_price := if action = "买入" then buy_price else some current_price,
    sell_price := if action = "卖出" then sell_price else none,
    stop_loss := stop_loss, target_price := target_price, reasons := reasons,
    technical_score := technical_result.score,
    fundamental_score := fundamental_result.score,
    sentiment_score := sentiment_result.score,
    overall_score := overall_score }

/-! ## Indicator engine (`indicators_v2.py`, `kdj_indicator.py`) -/

/-- Reading entry `i` of an indicator series (`series[i]` in the source);
out-of-range reads — which the source never performs on these series —
yield `none` like an undefined entry. -/
def idx (s : List (Option ℚ)) (i : ℕ) : Option ℚ := (s[i]?).getD none

/-- Reading entry `i` of a price list (`prices[i]` in the source, always
performed in range). -/
def pyIdx (l : List ℚ) (i : ℕ) : ℚ := (l[i]?).getD 0

/-- `calculate_sma`: simple moving average, `None` before index `period - 1`. -/
def calculate_sma (prices : List ℚ) (period : ℕ) : List (Option ℚ) :=
  if prices.length < period then List.replicate prices.length none
  else
    (List.range prices.length).map (fun i =>
      if i < period - 1 then none
      else some (((prices.drop (i + 1 - period)).take period).sum / period))

/-- Tail of `calculate_ema`'s loop: each step reads the previously appended
EMA value (`ema[-1]` in the source). -/
def emaLoop (multiplier : ℚ) (prev : ℚ) : List ℚ → List ℚ
  | [] => []
  | price :: rest =>
    let current := price * multiplier + prev * (1 - multiplier)
    current :: emaLoop multiplier current rest

/-- `calculate_ema`: seeded with the SMA of the first `period` prices. -/
def calculate_ema (prices : List ℚ) (period : ℕ) : List (Option ℚ) :=
  if prices.length < period then List.replicate prices.length none
  else
    let multiplier : ℚ := 2 / (period + 1)
    let initial_ema := (prices.take period).sum / period
    List.replicate (period - 1) none ++ [some initial_ema]
      ++ (emaLoop multiplier initial_ema (prices.drop period)).map some

/-- One Wilder-smoothing step of `calculate_rsi`'s loop, threading the
running average gain/loss. -/
def rsiLoop (period : ℕ) (avg_gain avg_loss : ℚ) : List ℚ → List ℚ
  | [] => []
  | change :: rest =>
    let gain := if change > 0 then change else 0
    let loss := if change < 0 then -change else 0
    let avg_gain2 := (avg_gain * (period - 1) + gain) / period
    let avg_loss2 := (avg_loss * (period - 1) + loss) / period
    let value := if avg_loss2 = 0 then (100 : ℚ)
      else 100 - 100 / (1 + avg_gain2 / avg_loss2)
    value :: rsiLoop period avg_gain2 avg_loss2 rest

/-- `calculate_rsi`: starts its output at `[None]` (a single `None`), then the
seed value from the first `period` deltas, then one value per further delta. -/
def calculate_rsi (prices : List ℚ) (period : ℕ) : List (Option ℚ) :=
  if prices.length < period + 1 then List.replicate prices.length none
  else
    let changes := List.zipWith (fun a b => b - a) prices prices.tail
    let gains := (changes.take period).map (fun c => if c > 0 then c else 0)
    let losses := (changes.take period).map (fun c => if c < 0 then -c else 0)
    let avg_gain := gains.sum / period
    let avg_loss := losses.sum / period
    let seed := if avg_loss = 0 then (100 : ℚ)
      else 100 - 100 / (1 + avg_gain / avg_loss)
    none :: some seed :: (rsiLoop period avg_gain avg_loss (changes.drop period)).map some

/-- Elementwise difference of two optional series (`None` wherever either
operand is `None`), as in the `macd_line`/`histogram` loops. -/
def optSub (a b : Option ℚ) : Option ℚ :=
  match a, b with
  | some x, some y => some (x - y)
  | _, _ => none

/-- The `macd_line` loop of `calculate_macd`:
`ema_fast[i] − ema_slow[i]` where both are defined, `None` otherwise. -/
def macd_line (prices : List ℚ) (fast_period slow_period : ℕ) : List (Option ℚ) :=
  List.zipWith optSub (calculate_ema prices fast_period)
    (calculate_ema prices slow_period)

/-- The `valid_macd` filter of `calculate_macd`: the defined entries. -/
def valid_macd (prices : List ℚ) (fast_period slow_period : ℕ) : List ℚ :=
  (macd_line prices fast_period slow_period).filterMap id

/-- `calculate_macd`: returns `(macd, signal, histogram)`. -/
def calculate_macd (prices : List ℚ) (fast_period slow_period signal_period : ℕ) :
    List (Option ℚ) × List (Option ℚ) × List (Option ℚ) :=
  let line := macd_line prices fast_period slow_period
  let valid := valid_macd prices fast_period slow_period
  if valid.length < signal_period then
    (line, List.replicate line.length none, List.replicate line.length none)
  else
    let ema_signal := calculate_ema valid signal_period
    let signal_line := List.replicate (prices.length - ema_signal.length) none ++ ema_signal
    let histogram := List.zipWith optSub line signal_line
    (line, signal_line, histogram)

/-- `calculate_bollinger_bands`: returns `(middle, upper, lower)`.  The float
square root `math.sqrt` is abstracted by the parameter `sqrtFn`; the invariants
proved below hold for every choice of `sqrtFn`. -/
def calculate_bollinger_bands (sqrtFn : ℚ → ℚ) (prices : List ℚ) (period : ℕ)
    (std_dev : ℚ) : List (Option ℚ) × List (Option ℚ) × List (Option ℚ) :=
  let middle := calculate_sma prices period
  let band := fun (i : ℕ) (sign : ℚ) =>
    match idx middle i with
    | none => none
    | some mean =>
      if i < period - 1 then none
      else
        let slice_prices := (prices.drop (i + 1 - period)).take period
        let variance : ℚ := (slice_prices.map (fun p => ((p - mean) ^ 2 : ℚ))).sum / period
        let std := sqrtFn variance
        some (mean + sign * (std_dev * std))
  let upper := (List.range prices.length).map (fun i => band i 1)
  let lower := (List.range prices.length).map (fun i => band i (-1))
  (middle, upper, lower)

/-- Python `max` over a list (never called on an empty slice in the source). -/
def listMax : List ℚ → ℚ
  | [] => 0
  | x :: xs => xs.foldl max x

/-- Python `min` over a list (never called on an empty slice in the source). -/
def listMin : List ℚ → ℚ
  | [] => 0
  | x :: xs => xs.foldl min x

/-- Body of `calculate_kdj`'s J loop: `J[i] = 3·K[i] − 2·D[i]` where both are
defined, `None` otherwise. -/
def kdjCombine (k d : Option ℚ) : Option ℚ :=
  match k, d with
  | some kv, some dv => some (3 * kv - 2 * dv)
  | _, _ => none

/-- K-value recursion of `calculate_kdj`: `K[i] = ((m1-1)·K[i-1] + RSV)/m1`. -/
def kdjSmooth (m : ℚ) (prev : ℚ) : List ℚ → List ℚ
  | [] => []
  | r :: rest =>
    let k := ((m - 1) * prev + r) / m
    k :: kdjSmooth m k rest

/-- `calculate_kdj` of `kdj_indicator.py`: returns `(K, D, J)`. -/
def calculate_kdj (prices highs lows : List ℚ) (period : ℕ) (m1 m2 : ℚ) :
    List (Option ℚ) × List (Option ℚ) × List (Option ℚ) :=
  if prices.length < period ∨ highs.length < period ∨ lows.length < period then
    (List.replicate prices.length none, List.replicate prices.length none,
     List.replicate prices.length none)
  else
    let RSV := (List.range (prices.length - (period - 1))).map (fun j =>
      let i := j + (period - 1)
      let high_period := listMax ((highs.drop (i + 1 - period)).take period)
      let low_period := listMin ((lows.drop (i + 1 - period)).take period)
      if high_period = low_period then (50 : ℚ)
      else (pyIdx prices i - low_period) / (high_period - low_period) * 100)
    let k0 := RSV.headI
    let kvals := k0 :: kdjSmooth m1 k0 RSV.tail
    let dvals := k0 :: kdjSmooth m2 k0 (kdjSmooth m1 k0 RSV.tail)
    let K := List.replicate (period - 1) (none : Option ℚ) ++ kvals.map some
    let D := List.replicate (period - 1) (none : Option ℚ) ++ dvals.map some
    let J := List.zipWith kdjCombine K D
    (K, D, J)

/-! ## Technical analysis agent (`technical_agent.py`) -/

/-- One candle of the history provider (fields read by the technical agent). -/
structure Candle where
  open_ : ℚ
  high : ℚ
  low : ℚ
  close : ℚ
  volume : ℚ
deriving Repr, DecidableEq

instance : Inhabited Candle := ⟨⟨0, 0, 0, 0, 0⟩⟩

/-- One realtime quote of the quote provider (fields read by the agent). -/
structure Stock where
  price : ℚ
  volume : ℚ
  change_percent : ℚ
deriving Repr, DecidableEq

/-- Python negative indexing `l[-k]`: `none` models the `IndexError` raised
when `k` exceeds the length. -/
def pyNeg {α : Type} (l : List α) (k : ℕ) : Option α :=
  if 1 ≤ k ∧ k ≤ l.length then l.get? (l.length - k) else none

/-- Python `l[-k:]`: the last `k` elements (whole list when shorter). -/
def pyTail {α : Type} (l : List α) (k : ℕ) : List α := l.drop (l.length - k)

/-- Python `l[-k:-1]`: the last `k` elements with the final one removed. -/
def pyTailButLast {α : Type} (l : List α) (k : ℕ) : List α := (pyTail l k).dropLast

/-- Python `round(x, 2)` idealized over ℚ: round-half-even to a multiple
of `1/100`. -/
def pyRound2 (x : ℚ) : ℚ :=
  let y := 100 * x
  let f := Int.floor y
  let r := y - f
  let n : ℤ :=
    if r < 1 / 2 then f
    else if r > 1 / 2 then f + 1
    else if f % 2 = 0 then f else f + 1
  (n : ℚ) / 100

/-- Python substring test `needle in hay`. -/
def strContains (hay needle : String) : Bool := 2 ≤ (hay.splitOn needle).length

/-- `TechnicalAnalysisAgent._analyze_trend`.  The source guards only
`len(candles) < 5` yet reads `candles[-6]` and `candles[-21]`; `none` models
the `IndexError` raised when those indices are out of range. -/
def analyze_trend (candles : List Candle) : Option String :=
  if candles.length < 5 then some "未知"
  else
    match pyNeg candles 1, pyNeg candles 6, pyNeg candles 21 with
    | some c1, some c6, some c21 =>
      let short_trend := (c1.close - c6.close) / c6.close
      let mid_trend := (c1.close - c21.close) / c21.close
      if short_trend > 0.02 ∧ mid_trend > 0.02 then some "上升"
      else if short_trend < -0.02 ∧ mid_trend < -0.02 then some "下降"
      else some "横盘"
    | _, _, _ => none

/-- `TechnicalAnalysisAgent._analyze_position`. -/
def analyze_position (candles : List Candle) (current_price : ℚ) : String :=
  if candles.length < 10 then "未知"
  else
    let recent_highs := (pyTail candles 10).map Candle.high
    let recent_lows := (pyTail candles 10).map Candle.low
    let highest := listMax recent_highs
    let lowest := listMin recent_lows
    let range_size := highest - lowest
    if range_size ≤ 0 then "未知"
    else
      let position := (current_price - lowest) / range_size
      if position < 0.3 then "低位"
      else if position > 0.7 then "高位"
      else "中位"

/-- `TechnicalAnalysisAgent._recognize_patterns`. -/
def recognize_patterns (candles : List Candle) : List String :=
  if candles.length < 3 then []
  else
    let recent_lows := (pyTail candles 10).map Candle.low
    let bottomFlat :=
      if listMax recent_lows - listMin recent_lows < 0.05 * listMin recent_lows
      then ["底部横盘"] else []
    let ma5 := ((pyTail candles 5).map Candle.close).sum / 5
    let ma10 := ((pyTail candles 10).map Candle.close).sum / 10
    let ma20 := ((pyTail candles 20).map Candle.close).sum / 20
    let bullMa := if ma5 > ma10 ∧ ma10 > ma20 then ["均线多头"] else []
    let bearMa := if ma5 < ma10 ∧ ma10 < ma20 then ["均线空头"] else []
    let last := (pyNeg candles 1).getD default
    let prev := (pyNeg candles 2).getD default
    let bullEngulf :=
      if last.close > prev.open_ ∧ last.open_ < prev.close ∧
         last.close > prev.close ∧ last.open_ < prev.open_
      then ["阳线吞没"] else []
    let bearEngulf :=
      if last.close < prev.open_ ∧ last.open_ > prev.close ∧
         last.close < prev.close ∧ last.open_ > prev.open_
      then ["阴线吞没"] else []
    let ma5_prev := ((pyTailButLast candles 6).map Candle.close).sum / 5
    let ma10_prev := ((pyTailButLast candles 11).map Candle.close).sum / 10
    let goldenCross := if ma5_prev ≤ ma10_prev ∧ ma5 > ma10 then ["MA金叉"] else []
    let deathCross := if ma5_prev ≥ ma10_prev ∧ ma5 < ma10 then ["MA死叉"] else []
    bottomFlat ++ bullMa ++ bearMa ++ bullEngulf ++ bearEngulf ++ goldenCross ++ deathCross

/-- `TechnicalAnalysisAgent._calculate_ema` (single final value). -/
def agent_calculate_ema (candles : List Candle) (period : ℕ) : ℚ :=
  if candles.length < period then ((pyNeg candles 1).getD default).close
  else
    let multiplier : ℚ := 2 / (period + 1)
    let ema0 := ((candles.take period).map Candle.close).sum / period
    (candles.drop period).foldl
      (fun ema c => (c.close - ema) * multiplier + ema) ema0

/-- `TechnicalAnalysisAgent._calculate_indicators` (simplified RSI over the
last 13 deltas, MACD as `EMA12 − EMA26`). -/
def calculate_indicators (candles : List Candle) : AgentIndicators :=
  let rsi : Option ℚ :=
    if 14 ≤ candles.length then
      let closes := (pyTail candles 14).map Candle.close
      let changes := List.zipWith (fun a b => b - a) closes closes.tail
      let gains := changes.map (fun c => if c > 0 then c else 0)
      let losses := changes.map (fun c => if c > 0 then 0 else |c|)
      let avg_gain := if gains.isEmpty then 0 else gains.sum / 14
      let avg_loss := if losses.isEmpty then 0 else losses.sum / 14
      let value := if avg_loss = 0 then (100 : ℚ)
        else 100 - 100 / (1 + avg_gain / avg_loss)
      some (pyRound2 value)
    else none
  let macd : Option ℚ :=
    if 26 ≤ candles.length then
      some (pyRound2 (agent_calculate_ema candles 12 - agent_calculate_ema candles 26))
    else none
  ⟨rsi, macd⟩

/-- `TechnicalAnalysisAgent._analyze_volume_price`. -/
def analyze_volume_price (candles : List Candle) (stock : Stock) : String :=
  if candles.length < 10 then "未知"
  else
    let current_volume := stock.volume
    let avg_volume := ((pyTailButLast candles 10).map Candle.volume).sum / 9
    let volume_ratio := if avg_volume > 0 then current_volume / avg_volume else 1.0
    let change_pct := stock.change_percent
    if change_pct > 2.0 ∧ volume_ratio > 1.5 then "放量上涨"
    else if change_pct < -2.0 ∧ volume_ratio > 1.5 then "放量下跌"
    else if change_pct > 2.0 ∧ volume_ratio < 0.8 then "缩量上涨"
    else if change_pct < -2.0 ∧ volume_ratio < 0.8 then "缩量下跌"
    else "量价正常"

/-- `TechnicalAnalysisAgent._calculate_score`. -/
def tech_calculate_score (result : TechnicalAnalysisResult) : ℚ :=
  let score : ℚ := 0.0
  let score := if result.trend = "上升" then score + 0.25
    else if result.trend = "下降" then score - 0.25 else score
  let score := if result.position = "低位" then score + 0.20
    else if result.position = "高位" then score - 0.20 else score
  let positive_patterns := ["底部横盘", "均线多头", "阳线吞没", "MA金叉"]
  let negative_patterns := ["均线空头", "阴线吞没", "MA死叉"]
  let score := result.patterns.foldl (fun sc pattern =>
    if pattern ∈ positive_patterns then sc + 0.10
    else if pattern ∈ negative_patterns then sc - 0.10
    else sc) score
  let score := if strContains result.volume_price "放量上涨" then score + 0.15
    else if strContains result.volume_price "放量下跌" then score - 0.15 else score
  let rsi := result.indicators.rsi.getD 50
  let score := if rsi < 30 then score + 0.15
    else if rsi > 70 then score - 0.15 else score
  max 0.0 (min 1.0 score)

/-- `TechnicalAnalysisAgent._generate_signals`. -/
def tech_generate_signals (result : TechnicalAnalysisResult) (_current_price : ℚ) :
    List String :=
  if result.score ≥ 0.7 then ["强烈买入信号"]
  else if result.score ≥ 0.5 then ["买入信号"]
  else if result.score ≤ 0.3 then ["卖出信号"]
  else if result.score ≤ 0.1 then ["强烈卖出信号"]
  else ["观望"]

/-- Steps 1–7 of `TechnicalAnalysisAgent.analyze` (the body run once the
realtime quote is present and at least 10 candles exist).  A `none` result
models an uncaught exception. -/
def analyze_main (stock : Stock) (candles : List Candle) :
    Option TechnicalAnalysisResult :=
  match analyze_trend candles with
  | none => none
  | some trend =>
    let position := analyze_position candles stock.price
    let patterns := recognize_patterns candles
    let indicators := calculate_indicators candles
    let volume_price := analyze_volume_price candles stock
    let partial_result : TechnicalAnalysisResult :=
      { trend := trend, position := position, patterns := patterns,
        indicators := indicators, volume_price := volume_price,
        score := 0.0, signals := [] }
    let scored := { partial_result with score := tech_calculate_score partial_result }
    some { scored with signals := tech_generate_signals scored stock.price }

/-- `TechnicalAnalysisAgent.analyze`.  External collaborators are parameters:
`quote` is the realtime quote (`none` = provider returned nothing) and
`candles` the history provider's candle list.  A `none` result models an
uncaught exception escaping `analyze`. -/
def analyze (quote : Option Stock) (candles : List Candle) :
    Option TechnicalAnalysisResult :=
  match quote with
  | none => some defaultTechnicalResult
  | some stock =>
    if candles.length < 10 then some defaultTechnicalResult
    else analyze_main stock candles


/-! ## Projection lemmas -/

lemma debate_bull_score_eq (t : TechnicalAnalysisResult)
    (f : FundamentalAnalysisResult) (s : SentimentAnalysisResult) :
    (debate t f s).bull_score = calculate_bull_score t.score f.score s.score := rfl

lemma debate_bear_score_eq (t : TechnicalAnalysisResult)
    (f : FundamentalAnalysisResult) (s : SentimentAnalysisResult) :
    (debate t f s).bear_score = calculate_bear_score t.score f.score s.score := rfl

lemma debate_score_eq (t : TechnicalAnalysisResult)
    (f : FundamentalAnalysisResult) (s : SentimentAnalysisResult) :
    (debate t f s).score = calculate_bull_score t.score f.score s.score /
      (calculate_bull_score t.score f.score s.score +
        calculate_bear_score t.score f.score s.score) := rfl

lemma make_decision_overall_score_eq (symbol : String) (quote : Option ℚ)
    (t : TechnicalAnalysisResult) (f : FundamentalAnalysisResult)
    (s : SentimentAnalysisResult) (d : DebateResult) :
    (make_decision symbol quote t f s d).overall_score
      = t.score * 0.4 + f.score * 0.3 + s.score * 0.3 := rfl

lemma make_decision_buy_price_eq (symbol : String) (quote : Option ℚ)
    (t : TechnicalAnalysisResult) (f : FundamentalAnalysisResult)
    (s : SentimentAnalysisResult) (d : DebateResult) :
    (make_decision symbol quote t f s d).buy_price
      = (if (determine_action (t.score * 0.4 + f.score * 0.3 + s.score * 0.3)
              d.consensus).1 = "买入"
         then (calculate_prices
                (determine_action (t.score * 0.4 + f.score * 0.3 + s.score * 0.3)
                  d.consensus).1
                (match quote with | none => 0.0 | some price => price) t).1
         else some (match quote with | none => 0.0 | some price => price)) := rfl

/-! ## Claim theorems: decision and debate engines -/

/-- Claim C1: for every `overall_score` in `[0,1]` and every consensus label,
`DecisionAgent._determine_action` realizes exactly the spec's first-match
table — `≥ 0.7` bullish → buy with `min(0.9, s+0.1)`; `≥ 0.5` bullish → buy
with `s`; `≤ 0.3` bearish → sell with `min(0.9, (1−s)+0.1)`; `≤ 0.4` bearish →
sell with `1−s`; otherwise hold with `0.5` — and on the scenario
`technical=0.9, fundamental=0.85, sentiment=0.65` with bullish consensus the
overall score is `0.81` and the decision is buy with confidence `0.9`. -/
theorem C1_determine_action_table :
    (∀ (s : ℚ) (c : String), 0 ≤ s → s ≤ 1 →
      ((0.7 ≤ s ∧ c = "看多") →
        determine_action s c = ("买入", min 0.9 (s + 0.1)))
      ∧ ((0.5 ≤ s ∧ s < 0.7 ∧ c = "看多") →
        determine_action s c = ("买入", s))
      ∧ ((s ≤ 0.3 ∧ c = "看空") →
        determine_action s c = ("卖出", min 0.9 ((1 - s) + 0.1)))
      ∧ ((0.3 < s ∧ s ≤ 0.4 ∧ c = "看空") →
        determine_action s c = ("卖出", 1 - s))
      ∧ ((¬(0.5 ≤ s ∧ c = "看多") ∧ ¬(s ≤ 0.4 ∧ c = "看空")) →
        determine_action s c = ("观望", 0.5)))
    ∧ ((0.9 : ℚ) * 0.4 + 0.85 * 0.3 + 0.65 * 0.3 = 0.81)
    ∧ determine_action 0.81 "看多" = ("买入", 0.9) := by
  refine ⟨?_, by norm_num, ?_⟩
  · intro s c h0 h1
    refine ⟨?_, ?_, ?_, ?_, ?_⟩
    · rintro ⟨hs, rfl⟩
      rw [determine_action, if_pos ⟨hs, rfl⟩]
    · rintro ⟨hs, hlt, rfl⟩
      rw [determine_action, if_neg (fun h => absurd h.1 (not_le.mpr hlt)),
        if_pos ⟨hs, rfl⟩]
    · rintro ⟨hs, rfl⟩
      rw [determine_action, if_neg (fun h => absurd h.2 (by decide)),
        if_neg (fun h => absurd h.2 (by decide)), if_pos ⟨hs, rfl⟩]
      norm_num
    · rintro ⟨hgt, hs, rfl⟩
      rw [determine_action, if_neg (fun h => absurd h.2 (by decide)),
        if_neg (fun h => absurd h.2 (by decide)),
        if_neg (fun h => absurd h.1 (not_le.mpr hgt)), if_pos ⟨hs, rfl⟩]
      norm_num
    · rintro ⟨hbull, hbear⟩
      rw [determine_action,
        if_neg (fun h => hbull ⟨by linarith [h.1], h.2⟩),
        if_neg hbull,
        if_neg (fun h => hbear ⟨by linarith [h.1], h.2⟩),
        if_neg hbear]
  · rw [determine_action, if_pos ⟨by norm_num, rfl⟩]
    have hmin : min (0.9 : ℚ) (0.81 + 0.1) = 0.9 := by norm_num [min_def]
    rw [hmin]

/-- Witness for Claim C1 at a concrete interior input. -/
theorem C1_witness :
    determine_action 0.6 "看多" = ("买入", 0.6) := by
  exact (C1_determine_action_table.1 0.6 "看多" (by norm_num) (by norm_num)).2.1
    ⟨by norm_num, by norm_num, rfl⟩

/-- Claim C4 counterexample: with bearish consensus the confidence of
`_determine_action` falls from `0.9` at `overall_score = 0.2` to `0.8` at
`overall_score = 0.3`, so confidence is not monotonically non-decreasing in
`overall_score` for every fixed consensus. -/
theorem C4_counterexample :
    (0 : ℚ) ≤ 0.2 ∧ (0.2 : ℚ) ≤ 0.3 ∧ (0.3 : ℚ) ≤ 1
    ∧ (determine_action 0.2 "看空").2 = 0.9
    ∧ (determine_action 0.3 "看空").2 = 0.8
    ∧ ¬((determine_action 0.2 "看空").2 ≤ (determine_action 0.3 "看空").2) := by
  have e1 : determine_action 0.2 "看空" = ("卖出", 0.9) := by
    rw [determine_action, if_neg (fun h => absurd h.2 (by decide)),
      if_neg (fun h => absurd h.2 (by decide)), if_pos ⟨by norm_num, rfl⟩]
    have hmin : min (0.9 : ℚ) ((1.0 - 0.2) + 0.1) = 0.9 := by norm_num [min_def]
    rw [hmin]
  have e2 : determine_action 0.3 "看空" = ("卖出", 0.8) := by
    rw [determine_action, if_neg (fun h => absurd h.2 (by decide)),
      if_neg (fun h => absurd h.2 (by decide)), if_pos ⟨by norm_num, rfl⟩]
    have hmin : min (0.9 : ℚ) ((1.0 - 0.3) + 0.1) = 0.8 := by norm_num [min_def]
    rw [hmin]
  refine ⟨by norm_num, by norm_num, by norm_num, by rw [e1], by rw [e2], ?_⟩
  rw [e1, e2]
  norm_num

/-- Claim C4 (amended): the confidence returned by
`DecisionAgent._determine_action` is monotonically non-decreasing in
`overall_score` over `[0,1]` for every fixed consensus other than bearish,
and monotonically non-increasing for the bearish consensus. -/
theorem C4_monotonicity_amended (c : String) (s1 s2 : ℚ)
    (h0 : 0 ≤ s1) (h12 : s1 ≤ s2) (h1 : s2 ≤ 1) :
    (c ≠ "看空" → (determine_action s1 c).2 ≤ (determine_action s2 c).2)
    ∧ (c = "看空" → (determine_action s2 c).2 ≤ (determine_action s1 c).2) := by
  constructor
  · intro hne
    by_cases hm : c = "看多"
    · subst hm
      simp only [determine_action, eq_self_iff_true, and_true,
        eq_false (show ¬("看多" : String) = "看空" from by decide), and_false,
        if_false, min_def]
      split_ifs <;> norm_num <;> linarith
    · simp only [determine_action, eq_false hm, eq_false hne, and_false,
        if_false, le_refl]
  · intro hc
    subst hc
    simp only [determine_action, eq_self_iff_true, and_true,
      eq_false (show ¬("看空" : String) = "看多" from by decide), and_false,
      if_false, min_def]
    split_ifs <;> norm_num <;> linarith

/-- Witness for Claim C4 (amended) at concrete inputs. -/
theorem C4_amended_witness :
    (determine_action 0.5 "看多").2 ≤ (determine_action 0.75 "看多").2
    ∧ (determine_action 0.75 "看空").2 ≤ (determine_action 0.5 "看空").2 := by
  have hb := C4_monotonicity_amended "看多" 0.5 0.75 (by norm_num) (by norm_num)
    (by norm_num)
  have hr := C4_monotonicity_amended "看空" 0.5 0.75 (by norm_num) (by norm_num)
    (by norm_num)
  exact ⟨hb.1 (by decide), hr.2 rfl⟩

/-- Claim C5: in every `DebateResult` produced by `DebateAgent.debate`,
`bear_score = 1 − bull_score`; hence `bull_score + bear_score = 1`, the
denominator of the `score` field is `1` (never zero) and
`score = bull_score`. -/
theorem C5_consensus_symmetry (t : TechnicalAnalysisResult)
    (f : FundamentalAnalysisResult) (s : SentimentAnalysisResult) :
    (debate t f s).bear_score = 1 - (debate t f s).bull_score
    ∧ (debate t f s).bull_score + (debate t f s).bear_score = 1
    ∧ (debate t f s).bull_score + (debate t f s).bear_score ≠ 0
    ∧ (debate t f s).score = (debate t f s).bull_score := by
  rw [debate_bear_score_eq, debate_bull_score_eq, debate_score_eq,
    calculate_bear_score]
  refine ⟨by norm_num, by ring, by intro h; nlinarith [h], ?_⟩
  have hden : calculate_bull_score t.score f.score s.score +
      (1.0 - calculate_bull_score t.score f.score s.score) = 1 := by ring
  rw [hden, div_one]

/-- Claim C6: `DebateAgent._reach_consensus` returns neutral exactly when
`|bull_score − bear_score| < 0.1` (strict inequality), and at a difference of
exactly `0.1` it returns the side with the larger score — bullish when
`bull_score > bear_score`, else bearish — never neutral. -/
theorem C6_consensus_tie_break (bull_score bear_score : ℚ) :
    (reach_consensus bull_score bear_score = "中性"
      ↔ |bull_score - bear_score| < 0.1)
    ∧ (|bull_score - bear_score| = 0.1 →
        reach_consensus bull_score bear_score =
          (if bull_score > bear_score then "看多" else "看空")
        ∧ reach_consensus bull_score bear_score ≠ "中性") := by
  constructor
  · rw [reach_consensus]
    split_ifs with hd hgt
    · simp [hd]
    · simp only [iff_false_intro hd, iff_false]
      decide
    · simp only [iff_false_intro hd, iff_false]
      decide
  · intro heq
    have hd : ¬(|bull_score - bear_score| < 0.1) := by
      rw [heq]
      norm_num
    rw [reach_consensus]
    split_ifs with h1 h2 <;> first
      | exact absurd h1 hd
      | exact ⟨rfl, by decide⟩

/-- Witness for Claim C6's exact-tie branch at `bull = 0.55`, `bear = 0.45`. -/
theorem C6_witness :
    reach_consensus 0.55 0.45 = "看多"
    ∧ reach_consensus 0.55 0.45 ≠ "中性" := by
  have h := (C6_consensus_tie_break 0.55 0.45).2 (by norm_num)
  refine ⟨?_, h.2⟩
  have h1 := h.1
  rwa [if_pos (by norm_num)] at h1

/-- Claim C7: the overall score computed inside `DecisionAgent.make_decision`
coincides with the bull score of `DebateAgent._calculate_bull_score` on the
same triple of domain scores, and both equal
`0.4·technical + 0.3·fundamental + 0.3·sentiment`. -/
theorem C7_blend_consistency (symbol : String) (quote : Option ℚ)
    (t : TechnicalAnalysisResult) (f : FundamentalAnalysisResult)
    (s : SentimentAnalysisResult) (d : DebateResult) :
    ((make_decision symbol quote t f s d).overall_score
      = calculate_bull_score t.score f.score s.score)
    ∧ (∀ ts fs ss : ℚ,
        calculate_bull_score ts fs ss = 0.4 * ts + 0.3 * fs + 0.3 * ss) := by
  constructor
  · rw [make_decision_overall_score_eq, calculate_bull_score]
  · intro ts fs ss
    rw [calculate_bull_score]
    ring

/-- Claim C9: `DecisionAgent._calculate_prices` populates
`(buy_price, sell_price, stop_loss, target_price)` as
`(price, None, price·(1−0.03), price·(1+0.05) — widened to price·(1+0.07) at
a low technical position)` for a buy, as `(None, price, None, None)` for a
sell, and as all-`None` for a hold or any other action; so stop-loss/target
are populated only on buy and the sell price only on sell. -/
theorem C9_price_levels (price : ℚ) (tr : TechnicalAnalysisResult) :
    (calculate_prices "买入" price tr =
      (some price, none, some (price * (1 - 0.03)),
       some (if tr.position = "低位" then price * (1 + 0.07)
             else price * (1 + 0.05))))
    ∧ calculate_prices "卖出" price tr = (none, some price, none, none)
    ∧ calculate_prices "观望" price tr = (none, none, none, none)
    ∧ (∀ a : String, a ≠ "买入" → a ≠ "卖出" →
        calculate_prices a price tr = (none, none, none, none)) := by
  refine ⟨?_, ?_, ?_, ?_⟩
  · rw [calculate_prices, if_pos rfl]
    simp only [stop_loss_pct, take_profit_pct, Prod.mk.injEq, Option.some.injEq]
    refine ⟨trivial, trivial, trivial, ?_⟩
    split_ifs <;> norm_num
  · rw [calculate_prices, if_neg (by decide), if_pos rfl]
  · rw [calculate_prices, if_neg (by decide), if_neg (by decide)]
  · intro a ha hb
    rw [calculate_prices, if_neg ha, if_neg hb]

/-- Witness for Claim C9's generic non-buy/non-sell branch. -/
theorem C9_witness :
    calculate_prices "hold" 12 defaultTechnicalResult
      = (none, none, none, none) := by
  exact (C9_price_levels 12 defaultTechnicalResult).2.2.2 "hold"
    (by decide) (by decide)

/-- Claim C10: `DecisionAgent.make_decision` always sets `buy_price` to a
non-`None` value — the current market price, which is `0.0` when the realtime
quote is unavailable — whatever the action is. -/
theorem C10_buy_price_never_none (symbol : String) (quote : Option ℚ)
    (t : TechnicalAnalysisResult) (f : FundamentalAnalysisResult)
    (s : SentimentAnalysisResult) (d : DebateResult) :
    ((make_decision symbol quote t f s d).buy_price
      = some (match quote with | none => 0.0 | some price => price))
    ∧ (make_decision symbol quote t f s d).buy_price ≠ none := by
  have key : (make_decision symbol quote t f s d).buy_price
      = some (match quote with | none => 0.0 | some price => price) := by
    rw [make_decision_buy_price_eq]
    by_cases h : (determine_action
        (t.score * 0.4 + f.score * 0.3 + s.score * 0.3) d.consensus).1 = "买入"
    · rw [if_pos h, h, calculate_prices, if_pos rfl]
    · rw [if_neg h]
  exact ⟨key, by rw [key]; exact Option.some_ne_none _⟩

/-! ## Claim theorems: technical agent -/

/-- Claim C8: whenever the history provider returns fewer than 10 candles,
`TechnicalAnalysisAgent.analyze` short-circuits to the default result — trend
`未知` (unknown), position `未知` (unknown), score `0.0`, with no pattern or
indicator computed — whatever the realtime quote is. -/
theorem C8_insufficient_history (quote : Option Stock) (candles : List Candle)
    (h : candles.length < 10) :
    analyze quote candles = some defaultTechnicalResult
    ∧ defaultTechnicalResult.trend = "未知"
    ∧ defaultTechnicalResult.position = "未知"
    ∧ defaultTechnicalResult.score = 0
    ∧ defaultTechnicalResult.patterns = []
    ∧ defaultTechnicalResult.indicators = ⟨none, none⟩ := by
  refine ⟨?_, rfl, rfl, rfl, rfl, rfl⟩
  cases quote with
  | none => rfl
  | some stock =>
    show (if candles.length < 10 then some defaultTechnicalResult
          else analyze_main stock candles) = some defaultTechnicalResult
    rw [if_pos h]

/-- Witness for Claim C8 at a concrete 5-candle history. -/
theorem C8_witness :
    analyze (some ⟨10, 1000, 0⟩) (List.replicate 5 ⟨10, 10, 10, 10, 100⟩)
      = some defaultTechnicalResult := by
  exact (C8_insufficient_history _ _ (by decide)).1

/-- Claim C3 (code bug): a history of exactly 10 candles passes `analyze`'s
`len < 10` guard, but `_analyze_trend` then reads `candles[-21]`, so
`analyze` raises an uncaught `IndexError` (modelled by `none`) instead of
returning a degraded-but-valid `TechnicalAnalysisResult`. -/
theorem C3_analyze_raises_on_ten_candles :
    (List.replicate 10 (⟨10, 10, 10, 10, 100⟩ : Candle)).length = 10
    ∧ analyze (some ⟨10, 1000, 0⟩)
        (List.replicate 10 ⟨10, 10, 10, 10, 100⟩) = none := by
  exact ⟨rfl, rfl⟩

/-! ## Series lemmas for the indicator engine -/

/-- The undefined-region predicate: all entries strictly below index
`p − 1` are `None`. -/
def undefinedBelow (s : List (Option ℚ)) (p : ℕ) : Prop :=
  ∀ i < p - 1, idx s i = none

/-- Entry `i` of the series holds a value. -/
def definedAt (s : List (Option ℚ)) (i : ℕ) : Prop := (idx s i).isSome

lemma getElem?_range_full (n i : ℕ) :
    (List.range n)[i]? = if i < n then some i else none := by
  split_ifs with h
  · exact List.getElem?_range h
  · exact List.getElem?_eq_none (by simpa using not_lt.mp h)

lemma idx_replicate_none (n i : ℕ) : idx (List.replicate n none) i = none := by
  unfold idx
  rw [List.getElem?_replicate]
  split_ifs <;> rfl

lemma idx_append_right (A B : List (Option ℚ)) (i : ℕ) (h : A.length ≤ i) :
    idx (A ++ B) i = idx B (i - A.length) := by
  unfold idx
  rw [List.getElem?_append_right h]

lemma idx_isSome_of_forall (s : List (Option ℚ)) (h : ∀ x ∈ s, x.isSome)
    (i : ℕ) (hi : i < s.length) : (idx s i).isSome := by
  unfold idx
  rcases hg : s[i]? with _ | x
  · exact absurd (List.getElem?_eq_none_iff.mp hg) (not_le.mpr hi)
  · simpa using h x (List.getElem?_mem hg)

lemma idx_zipWith {f : Option ℚ → Option ℚ → Option ℚ}
    (h1 : ∀ y, f none y = none) (h2 : ∀ x, f x none = none)
    (a b : List (Option ℚ)) (i : ℕ) :
    idx (List.zipWith f a b) i = f (idx a i) (idx b i) := by
  unfold idx
  rw [List.getElem?_zipWith']
  rcases a[i]? with _ | x <;> rcases b[i]? with _ | y <;>
    simp [h1, h2]

lemma optSub_none_left (y : Option ℚ) : optSub none y = none := by
  cases y <;> rfl

lemma optSub_none_right (x : Option ℚ) : optSub x none = none := by
  cases x <;> rfl

lemma calculate_sma_length (prices : List ℚ) (period : ℕ) :
    (calculate_sma prices period).length = prices.length := by
  unfold calculate_sma
  split_ifs <;> simp

lemma calculate_sma_undefined (prices : List ℚ) (period : ℕ) :
    undefinedBelow (calculate_sma prices period) period := by
  intro i hi
  unfold calculate_sma idx
  split_ifs with h
  · rw [List.getElem?_replicate]
    split_ifs <;> rfl
  · rw [List.getElem?_map, getElem?_range_full]
    split_ifs with hin
    · simp [hi]
    · rfl

lemma calculate_sma_defined (prices : List ℚ) (period : ℕ) (hp : 1 ≤ period)
    (hlen : period ≤ prices.length) :
    definedAt (calculate_sma prices period) (period - 1) := by
  unfold calculate_sma definedAt idx
  rw [if_neg (not_lt.mpr hlen), List.getElem?_map, getElem?_range_full,
    if_pos (by omega)]
  simp

lemma emaLoop_length (m : ℚ) (prev : ℚ) (l : List ℚ) :
    (emaLoop m prev l).length = l.length := by
  induction l generalizing prev with
  | nil => rfl
  | cons x xs ih => simp [emaLoop, ih]

lemma calculate_ema_length (prices : List ℚ) (period : ℕ) (hp : 1 ≤ period) :
    (calculate_ema prices period).length = prices.length := by
  unfold calculate_ema
  split_ifs with h
  · simp
  · simp [emaLoop_length]
    omega

lemma calculate_ema_undefined (prices : List ℚ) (period : ℕ) :
    undefinedBelow (calculate_ema prices period) period := by
  intro i hi
  unfold calculate_ema
  split_ifs with h
  · exact idx_replicate_none _ _
  · unfold idx
    rw [List.append_assoc,
      List.getElem?_append_left (by simpa using hi),
      List.getElem?_replicate, if_pos hi]
    rfl

lemma calculate_ema_defined_at (prices : List ℚ) (period i : ℕ) (hp : 1 ≤ period)
    (hlen : period ≤ prices.length) (hi1 : period - 1 ≤ i)
    (hi2 : i < prices.length) : definedAt (calculate_ema prices period) i := by
  unfold calculate_ema definedAt
  rw [if_neg (not_lt.mpr hlen), List.append_assoc, idx_append_right _ _ _
    (by simpa using hi1)]
  apply idx_isSome_of_forall
  · intro x hx
    rcases List.mem_append.mp hx with hx | hx
    · rcases List.mem_singleton.mp hx with rfl
      rfl
    · rcases List.mem_map.mp hx with ⟨a, _, rfl⟩
      rfl
  · simp [emaLoop_length]
    omega

lemma rsiLoop_length (period : ℕ) (ag al : ℚ) (l : List ℚ) :
    (rsiLoop period ag al l).length = l.length := by
  induction l generalizing ag al with
  | nil => rfl
  | cons c cs ih => simp [rsiLoop, ih]

lemma calculate_rsi_short (prices : List ℚ) (period : ℕ)
    (h : prices.length < period + 1) :
    calculate_rsi prices period = List.replicate prices.length none := by
  unfold calculate_rsi
  rw [if_pos h]

lemma calculate_rsi_length_main (prices : List ℚ) (period : ℕ)
    (h : period + 1 ≤ prices.length) :
    (calculate_rsi prices period).length = prices.length - period + 1 := by
  unfold calculate_rsi
  rw [if_neg (not_lt.mpr h)]
  simp only [List.length_cons, List.length_map, rsiLoop_length,
    List.length_drop, List.length_zipWith, List.length_tail]
  rw [min_eq_right (Nat.sub_le _ _)]
  omega

lemma calculate_rsi_idx_zero (prices : List ℚ) (period : ℕ)
    (h : period + 1 ≤ prices.length) :
    idx (calculate_rsi prices period) 0 = none := by
  unfold calculate_rsi
  rw [if_neg (not_lt.mpr h)]
  rfl

lemma calculate_rsi_defined_one (prices : List ℚ) (period : ℕ)
    (h : period + 1 ≤ prices.length) :
    definedAt (calculate_rsi prices period) 1 := by
  unfold calculate_rsi definedAt idx
  rw [if_neg (not_lt.mpr h)]
  simp

lemma idx_map_range (f : ℕ → Option ℚ) (n i : ℕ) :
    idx ((List.range n).map f) i = if i < n then f i else none := by
  unfold idx
  rw [List.getElem?_map, getElem?_range_full]
  split_ifs <;> rfl

lemma bollinger_lengths (sqrtFn : ℚ → ℚ) (prices : List ℚ) (period : ℕ)
    (std_dev : ℚ) :
    (calculate_bollinger_bands sqrtFn prices period std_dev).1.length
        = prices.length
    ∧ (calculate_bollinger_bands sqrtFn prices period std_dev).2.1.length
        = prices.length
    ∧ (calculate_bollinger_bands sqrtFn prices period std_dev).2.2.length
        = prices.length := by
  unfold calculate_bollinger_bands
  refine ⟨?_, ?_, ?_⟩ <;> simp [calculate_sma_length]

lemma bollinger_upper_undefined (sqrtFn : ℚ → ℚ) (prices : List ℚ)
    (period : ℕ) (std_dev : ℚ) :
    undefinedBelow (calculate_bollinger_bands sqrtFn prices period std_dev).2.1
      period := by
  intro i hi
  unfold calculate_bollinger_bands
  simp only []
  rw [idx_map_range]
  split_ifs with hin
  · rw [calculate_sma_undefined prices period i hi]
  · rfl

lemma bollinger_lower_undefined (sqrtFn : ℚ → ℚ) (prices : List ℚ)
    (period : ℕ) (std_dev : ℚ) :
    undefinedBelow (calculate_bollinger_bands sqrtFn prices period std_dev).2.2
      period := by
  intro i hi
  unfold calculate_bollinger_bands
  simp only []
  rw [idx_map_range]
  split_ifs with hin
  · rw [calculate_sma_undefined prices period i hi]
  · rfl

lemma bollinger_upper_defined (sqrtFn : ℚ → ℚ) (prices : List ℚ) (period : ℕ)
    (std_dev : ℚ) (hp : 1 ≤ period) (hlen : period ≤ prices.length) :
    definedAt (calculate_bollinger_bands sqrtFn prices period std_dev).2.1
      (period - 1) := by
  obtain ⟨mean, hmean⟩ :=
    Option.isSome_iff_exists.mp (calculate_sma_defined prices period hp hlen)
  unfold calculate_bollinger_bands definedAt
  simp only []
  rw [idx_map_range, if_pos (by omega), hmean]
  simp

lemma bollinger_lower_defined (sqrtFn : ℚ → ℚ) (prices : List ℚ) (period : ℕ)
    (std_dev : ℚ) (hp : 1 ≤ period) (hlen : period ≤ prices.length) :
    definedAt (calculate_bollinger_bands sqrtFn prices period std_dev).2.2
      (period - 1) := by
  obtain ⟨mean, hmean⟩ :=
    Option.isSome_iff_exists.mp (calculate_sma_defined prices period hp hlen)
  unfold calculate_bollinger_bands definedAt
  simp only []
  rw [idx_map_range, if_pos (by omega), hmean]
  simp

lemma kdjSmooth_length (m prev : ℚ) (l : List ℚ) :
    (kdjSmooth m prev l).length = l.length := by
  induction l generalizing prev with
  | nil => rfl
  | cons r rs ih => simp [kdjSmooth, ih]

lemma shape_length (p : ℕ) (vals : List ℚ) :
    (List.replicate (p - 1) (none : Option ℚ) ++ vals.map some).length
      = p - 1 + vals.length := by
  simp

lemma shape_undefined (p : ℕ) (vals : List ℚ) :
    undefinedBelow (List.replicate (p - 1) (none : Option ℚ) ++ vals.map some)
      p := by
  intro i hi
  unfold idx
  rw [List.getElem?_append_left (by simpa using hi), List.getElem?_replicate,
    if_pos hi]
  rfl

lemma shape_defined (p i : ℕ) (vals : List ℚ) (h1 : p - 1 ≤ i)
    (h2 : i < p - 1 + vals.length) :
    definedAt (List.replicate (p - 1) (none : Option ℚ) ++ vals.map some) i := by
  unfold definedAt
  rw [idx_append_right _ _ _ (by simpa using h1)]
  apply idx_isSome_of_forall
  · intro x hx
    rcases List.mem_map.mp hx with ⟨a, _, rfl⟩
    rfl
  · simp
    omega

lemma kdjCombine_none_left (y : Option ℚ) : kdjCombine none y = none := by
  cases y <;> rfl

lemma kdjCombine_none_right (x : Option ℚ) : kdjCombine x none = none := by
  cases x <;> rfl

lemma calculate_kdj_K (prices highs lows : List ℚ) (period : ℕ) (m1 m2 : ℚ)
    (hp : 1 ≤ period) (hlen : period ≤ prices.length)
    (hh : highs.length = prices.length) (hl : lows.length = prices.length) :
    (calculate_kdj prices highs lows period m1 m2).1.length = prices.length
    ∧ undefinedBelow (calculate_kdj prices highs lows period m1 m2).1 period
    ∧ definedAt (calculate_kdj prices highs lows period m1 m2).1 (period - 1) := by
  unfold calculate_kdj
  rw [if_neg (by rw [hh, hl]; omega)]
  simp only []
  refine ⟨?_, shape_undefined _ _, ?_⟩
  · rw [shape_length]
    simp [kdjSmooth_length]
    omega
  · apply shape_defined _ _ _ le_rfl
    simp

lemma calculate_kdj_D (prices highs lows : List ℚ) (period : ℕ) (m1 m2 : ℚ)
    (hp : 1 ≤ period) (hlen : period ≤ prices.length)
    (hh : highs.length = prices.length) (hl : lows.length = prices.length) :
    (calculate_kdj prices highs lows period m1 m2).2.1.length = prices.length
    ∧ undefinedBelow (calculate_kdj prices highs lows period m1 m2).2.1 period
    ∧ definedAt (calculate_kdj prices highs lows period m1 m2).2.1
        (period - 1) := by
  unfold calculate_kdj
  rw [if_neg (by rw [hh, hl]; omega)]
  simp only []
  refine ⟨?_, shape_undefined _ _, ?_⟩
  · rw [shape_length]
    simp [kdjSmooth_length]
    omega
  · apply shape_defined _ _ _ le_rfl
    simp

lemma calculate_kdj_J (prices highs lows : List ℚ) (period : ℕ) (m1 m2 : ℚ)
    (hp : 1 ≤ period) (hlen : period ≤ prices.length)
    (hh : highs.length = prices.length) (hl : lows.length = prices.length) :
    (calculate_kdj prices highs lows period m1 m2).2.2.length = prices.length
    ∧ undefinedBelow (calculate_kdj prices highs lows period m1 m2).2.2 period
    ∧ definedAt (calculate_kdj prices highs lows period m1 m2).2.2
        (period - 1) := by
  have hK := calculate_kdj_K prices highs lows period m1 m2 hp hlen hh hl
  have hD := calculate_kdj_D prices highs lows period m1 m2 hp hlen hh hl
  obtain ⟨a, ha⟩ := Option.isSome_iff_exists.mp hK.2.2
  obtain ⟨b, hb⟩ := Option.isSome_iff_exists.mp hD.2.2
  have hKJ : (calculate_kdj prices highs lows period m1 m2).2.2
      = List.zipWith kdjCombine (calculate_kdj prices highs lows period m1 m2).1
          (calculate_kdj prices highs lows period m1 m2).2.1 := by
    unfold calculate_kdj
    split_ifs with h
    · exact absurd h (by rw [hh, hl]; omega)
    · rfl
  rw [hKJ]
  refine ⟨?_, ?_, ?_⟩
  · rw [List.length_zipWith, hK.1, hD.1, min_self]
  · intro i hi
    rw [idx_zipWith kdjCombine_none_left kdjCombine_none_right,
      hK.2.1 i hi, kdjCombine_none_left]
  · unfold definedAt
    rw [idx_zipWith kdjCombine_none_left kdjCombine_none_right, ha, hb]
    rfl

lemma calculate_kdj_short (prices highs lows : List ℚ) (period : ℕ) (m1 m2 : ℚ)
    (h : prices.length < period) :
    calculate_kdj prices highs lows period m1 m2 =
      (List.replicate prices.length none, List.replicate prices.length none,
       List.replicate prices.length none) := by
  unfold calculate_kdj
  rw [if_pos (Or.inl h)]

lemma macd_line_length (prices : List ℚ) (fast slow : ℕ)
    (hf : 1 ≤ fast) (hs : 1 ≤ slow) :
    (macd_line prices fast slow).length = prices.length := by
  rw [macd_line, List.length_zipWith, calculate_ema_length _ _ hf,
    calculate_ema_length _ _ hs, min_self]

lemma macd_line_undefined (prices : List ℚ) (fast slow : ℕ) :
    undefinedBelow (macd_line prices fast slow) slow := by
  intro i hi
  rw [macd_line, idx_zipWith optSub_none_left optSub_none_right,
    calculate_ema_undefined prices slow i hi, optSub_none_right]

lemma macd_line_defined (prices : List ℚ) (fast slow : ℕ)
    (hf : 1 ≤ fast) (hfs : fast ≤ slow) (hlen : slow ≤ prices.length) :
    definedAt (macd_line prices fast slow) (slow - 1) := by
  have hs : 1 ≤ slow := le_trans hf hfs
  obtain ⟨x, hx⟩ := Option.isSome_iff_exists.mp
    (calculate_ema_defined_at prices fast (slow - 1) hf
      (le_trans hfs hlen) (by omega) (by omega))
  obtain ⟨y, hy⟩ := Option.isSome_iff_exists.mp
    (calculate_ema_defined_at prices slow (slow - 1) hs hlen le_rfl (by omega))
  unfold definedAt
  rw [macd_line, idx_zipWith optSub_none_left optSub_none_right, hx, hy]
  rfl

lemma calculate_macd_fst (prices : List ℚ) (fast slow signalp : ℕ) :
    (calculate_macd prices fast slow signalp).1 = macd_line prices fast slow := by
  unfold calculate_macd
  simp only []
  split_ifs <;> rfl

lemma calculate_macd_rest_length (prices : List ℚ) (fast slow signalp : ℕ)
    (hf : 1 ≤ fast) (hs : 1 ≤ slow) (hg : 1 ≤ signalp) :
    (calculate_macd prices fast slow signalp).2.1.length = prices.length
    ∧ (calculate_macd prices fast slow signalp).2.2.length = prices.length := by
  have hml := macd_line_length prices fast slow hf hs
  have hv : (valid_macd prices fast slow).length ≤ prices.length :=
    hml ▸ List.length_filterMap_le _ _
  have hes : (calculate_ema (valid_macd prices fast slow) signalp).length
      = (valid_macd prices fast slow).length := calculate_ema_length _ _ hg
  unfold calculate_macd
  simp only []
  split_ifs with h
  · exact ⟨by simp [hml], by simp [hml]⟩
  · have hsl : (List.replicate
        (prices.length -
          (calculate_ema (valid_macd prices fast slow) signalp).length)
        (none : Option ℚ) ++
        calculate_ema (valid_macd prices fast slow) signalp).length
        = prices.length := by
      rw [List.length_append, List.length_replicate, hes]
      omega
    exact ⟨hsl, by rw [List.length_zipWith, hml, hsl, min_self]⟩

lemma bollinger_fst (sqrtFn : ℚ → ℚ) (prices : List ℚ) (period : ℕ)
    (std_dev : ℚ) :
    (calculate_bollinger_bands sqrtFn prices period std_dev).1
      = calculate_sma prices period := rfl

/-! ## Claim theorems: indicator engine -/

/-- Claim C2 counterexample: `calculate_rsi` on a 20-price list with period 14
returns a series of length 7, not 20 — its output starts with a single `None`
instead of `period` of them — so the equal-length/undefined-region invariant
fails for RSI. -/
theorem C2_counterexample :
    (List.replicate 20 (1 : ℚ)).length = 20
    ∧ (calculate_rsi (List.replicate 20 (1 : ℚ)) 14).length = 7
    ∧ (calculate_rsi (List.replicate 20 (1 : ℚ)) 14).length
        ≠ (List.replicate 20 (1 : ℚ)).length := by
  have h := calculate_rsi_length_main (List.replicate 20 (1 : ℚ)) 14 (by simp)
  rw [List.length_replicate] at h
  norm_num at h
  exact ⟨by simp, h, by rw [h]; simp⟩

/-- Claim C2 (amended): for SMA, EMA, Bollinger and KDJ of period `p` the
output series keep the input length, are `None` at every index below `p − 1`,
and hold their first defined value at index `p − 1` (when at least `p` inputs
exist); the three MACD series also keep the input length and its macd line is
`None` below index `slow − 1` and first defined there.  RSI violates the
invariant: when `len ≥ period + 1` its output has length `len − period + 1`
(a single leading `None` at index 0, first defined value at index 1), and
otherwise it is the all-`None` series of the input length. -/
theorem C2_undefined_region_amended (prices highs lows : List ℚ)
    (p fast slow signalp : ℕ) (m1 m2 std_dev : ℚ) (sqrtFn : ℚ → ℚ)
    (hp : 1 ≤ p) (hfast : 1 ≤ fast) (hfs : fast ≤ slow) (hsig : 1 ≤ signalp)
    (hh : highs.length = prices.length) (hl : lows.length = prices.length) :
    ((calculate_sma prices p).length = prices.length
      ∧ undefinedBelow (calculate_sma prices p) p
      ∧ (p ≤ prices.length → definedAt (calculate_sma prices p) (p - 1)))
    ∧ ((calculate_ema prices p).length = prices.length
      ∧ undefinedBelow (calculate_ema prices p) p
      ∧ (p ≤ prices.length → definedAt (calculate_ema prices p) (p - 1)))
    ∧ (((calculate_bollinger_bands sqrtFn prices p std_dev).1.length
          = prices.length
        ∧ (calculate_bollinger_bands sqrtFn prices p std_dev).2.1.length
          = prices.length
        ∧ (calculate_bollinger_bands sqrtFn prices p std_dev).2.2.length
          = prices.length)
      ∧ (undefinedBelow (calculate_bollinger_bands sqrtFn prices p std_dev).1 p
        ∧ undefinedBelow
            (calculate_bollinger_bands sqrtFn prices p std_dev).2.1 p
        ∧ undefinedBelow
            (calculate_bollinger_bands sqrtFn prices p std_dev).2.2 p)
      ∧ (p ≤ prices.length →
          definedAt (calculate_bollinger_bands sqrtFn prices p std_dev).1 (p - 1)
          ∧ definedAt
              (calculate_bollinger_bands sqrtFn prices p std_dev).2.1 (p - 1)
          ∧ definedAt
              (calculate_bollinger_bands sqrtFn prices p std_dev).2.2 (p - 1)))
    ∧ (((calculate_kdj prices highs lows p m1 m2).1.length = prices.length
        ∧ (calculate_kdj prices highs lows p m1 m2).2.1.length = prices.length
        ∧ (calculate_kdj prices highs lows p m1 m2).2.2.length = prices.length)
      ∧ (p ≤ prices.length →
          (undefinedBelow (calculate_kdj prices highs lows p m1 m2).1 p
            ∧ undefinedBelow (calculate_kdj prices highs lows p m1 m2).2.1 p
            ∧ undefinedBelow (calculate_kdj prices highs lows p m1 m2).2.2 p)
          ∧ (definedAt (calculate_kdj prices highs lows p m1 m2).1 (p - 1)
            ∧ definedAt (calculate_kdj prices highs lows p m1 m2).2.1 (p - 1)
            ∧ definedAt (calculate_kdj prices highs lows p m1 m2).2.2 (p - 1))))
    ∧ ((calculate_macd prices fast slow signalp).1.length = prices.length
      ∧ (calculate_macd prices fast slow signalp).2.1.length = prices.length
      ∧ (calculate_macd prices fast slow signalp).2.2.length = prices.length
      ∧ undefinedBelow (calculate_macd prices fast slow signalp).1 slow
      ∧ (slow ≤ prices.length →
          definedAt (calculate_macd prices fast slow signalp).1 (slow - 1)))
    ∧ ((prices.length < p + 1 →
          calculate_rsi prices p = List.replicate prices.length none)
      ∧ (p + 1 ≤ prices.length →
          (calculate_rsi prices p).length = prices.length - p + 1
          ∧ idx (calculate_rsi prices p) 0 = none
          ∧ definedAt (calculate_rsi prices p) 1)) := by
  have hslow : 1 ≤ slow := le_trans hfast hfs
  refine ⟨?_, ?_, ?_, ?_, ?_, ?_⟩
  · exact ⟨calculate_sma_length _ _, calculate_sma_undefined _ _,
      fun hlen => calculate_sma_defined _ _ hp hlen⟩
  · exact ⟨calculate_ema_length _ _ hp, calculate_ema_undefined _ _,
      fun hlen => calculate_ema_defined_at _ _ _ hp hlen le_rfl (by omega)⟩
  · refine ⟨⟨(bollinger_lengths _ _ _ _).1, (bollinger_lengths _ _ _ _).2.1,
      (bollinger_lengths _ _ _ _).2.2⟩, ⟨?_, bollinger_upper_undefined _ _ _ _,
      bollinger_lower_undefined _ _ _ _⟩, fun hlen => ⟨?_,
      bollinger_upper_defined _ _ _ _ hp hlen,
      bollinger_lower_defined _ _ _ _ hp hlen⟩⟩
    · rw [bollinger_fst]
      exact calculate_sma_undefined _ _
    · rw [bollinger_fst]
      exact calculate_sma_defined _ _ hp hlen
  · by_cases hlen : p ≤ prices.length
    · have hK := calculate_kdj_K prices highs lows p m1 m2 hp hlen hh hl
      have hD := calculate_kdj_D prices highs lows p m1 m2 hp hlen hh hl
      have hJ := calculate_kdj_J prices highs lows p m1 m2 hp hlen hh hl
      exact ⟨⟨hK.1, hD.1, hJ.1⟩,
        fun _ => ⟨⟨hK.2.1, hD.2.1, hJ.2.1⟩, hK.2.2, hD.2.2, hJ.2.2⟩⟩
    · have hshort := calculate_kdj_short prices highs lows p m1 m2
        (not_le.mp hlen)
      rw [hshort]
      exact ⟨⟨by simp, by simp, by simp⟩, fun h => absurd h hlen⟩
  · exact ⟨(calculate_macd_fst _ _ _ _) ▸ macd_line_length _ _ _ hfast hslow,
      (calculate_macd_rest_length _ _ _ _ hfast hslow hsig).1,
      (calculate_macd_rest_length _ _ _ _ hfast hslow hsig).2,
      (calculate_macd_fst _ _ _ _) ▸ macd_line_undefined _ _ _,
      fun hlen => (calculate_macd_fst _ _ _ _) ▸
        macd_line_defined _ _ _ hfast hfs hlen⟩
  · exact ⟨fun h => calculate_rsi_short _ _ h,
      fun h => ⟨calculate_rsi_length_main _ _ h, calculate_rsi_idx_zero _ _ h,
        calculate_rsi_defined_one _ _ h⟩⟩

/-- Witness for Claim C2 (amended) at a concrete 40-price input with the
engine's default periods. -/
theorem C2_amended_witness :
    (calculate_sma (List.replicate 40 (1 : ℚ)) 5).length = 40
    ∧ definedAt (calculate_sma (List.replicate 40 (1 : ℚ)) 5) 4
    ∧ (calculate_rsi (List.replicate 40 (1 : ℚ)) 5).length = 36 := by
  have h := C2_undefined_region_amended (List.replicate 40 (1 : ℚ))
    (List.replicate 40 (1 : ℚ)) (List.replicate 40 (1 : ℚ)) 5 12 26 9 3 3 2 id
    (by norm_num) (by norm_num) (by norm_num) (by norm_num) rfl rfl
  refine ⟨by simpa using h.1.1, ?_, ?_⟩
  · have hd := h.1.2.2 (by simp)
    simpa using hd
  · have hr := (h.2.2.2.2.2.2 (by simp)).1
    simpa using hr

end StockProject
